import Mathlib

/-!
Verification development for the Lieferspatz client interaction logger:
the event capture, classification, batching, and delivery pipeline
(UserInteractionLogger, CSVLogger, LogViewer).  Definitions are shallow
embeddings of the TypeScript source; theorems settle the spec claims.
-/

namespace Lieferspatz

/-! ## JavaScript string helpers -/

/-- JS `String.prototype.includes` over character lists. -/
def containsSub (hay needle : List Char) : Bool :=
  match hay with
  | [] => needle.isEmpty
  | _ :: t => needle.isPrefixOf hay || containsSub t needle

/-- JS `s.includes(sub)`. -/
def strIncludes (s sub : String) : Bool :=
  containsSub s.toList sub.toList

/-- JS `a || b` for a possibly-absent string `a` (empty string is falsy). -/
def jsOrStr (a b : Option String) : Option String :=
  match a with
  | some s => if s = "" then b else some s
  | none => b

/-- JS `a || dflt` producing a plain string (undefined and "" both fall through). -/
def jsOrDefault (a : Option String) (dflt : String) : String :=
  match a with
  | some s => if s = "" then dflt else s
  | none => dflt

/-- JS `a || ''` for an optional string. -/
def jsStrOpt (a : Option String) : String :=
  match a with
  | some s => s
  | none => ""

/-! ## Event details payload

`Record<string, any>` payload handed to `logInteraction`; the fields are
exactly those the logger and the CSV sink read off the payload. -/

structure Details where
  trigger : Option String := none
  validation : Option Bool := none
  username : Option String := none
  password : Option String := none
  autofill : Option Bool := none
  capsLock : Option Bool := none
  latency : Option Nat := none
  schema_version : Option String := none
  inputName : Option String := none
  inputType : Option String := none
  inputValue : Option String := none
  inputId : Option String := none
  finalValueLength : Option Nat := none
  component : Option String := none
  method : Option String := none
  statusCode : Option Nat := none
  url : Option String := none
  status_code : Option String := none
  user_id : Option String := none
  ip_address : Option String := none
  field_presence_map : Option (List (String × Bool)) := none
  deriving Repr, DecidableEq

/-! ## Noise classifier (UserInteractionLogger.isSystemNoise / isBusinessAPI /
isSystemNoiseEnhanced, part_003 lines 696-837) -/

structure NoiseVerdict where
  isNoise : Bool
  reason : Option String := none
  deriving Repr, DecidableEq

/-- JS `details.url?.includes(sub)` coerced to a boolean. -/
def optIncludes (u : Option String) (sub : String) : Bool :=
  match u with
  | some s => strIncludes s sub
  | none => false

/-- `isSystemNoise`: basic noise rules, first match wins. -/
def isSystemNoise (event : String) (d : Details) : NoiseVerdict :=
  if event = "http_request" ∧ d.method = some "OPTIONS" then
    ⟨true, some "cors_preflight"⟩
  else if event = "navigation" ∧ d.statusCode = some 308 then
    ⟨true, some "permanent_redirect"⟩
  else if event = "navigation" ∧ d.statusCode = some 301 then
    ⟨true, some "moved_permanently"⟩
  else if event = "navigation" ∧ d.statusCode = some 302 then
    ⟨true, some "temporary_redirect"⟩
  else if event = "http_request" ∧ d.trigger = some "browser" then
    ⟨true, some "browser_initiated"⟩
  else if event = "http_request" ∧ optIncludes d.url "/favicon" then
    ⟨true, some "favicon_request"⟩
  else if event = "http_request" ∧ optIncludes d.url "/health" then
    ⟨true, some "health_check"⟩
  else if event = "http_request" ∧ optIncludes d.url "/api/logs" then
    ⟨true, some "logging_endpoint"⟩
  else if event = "http_request" ∧ optIncludes d.url "/api/logs/stats" then
    ⟨true, some "logging_stats"⟩
  else if event = "http_request" ∧ optIncludes d.url "/socket.io" then
    ⟨true, some "websocket_connection"⟩
  else
    ⟨false, none⟩

/-- The `businessEndpoints` allow-list from `isBusinessAPI`, verbatim. -/
def businessEndpoints : List String :=
  [ "/api/customer/", "/api/customer/login", "/api/customer/register",
    "/api/customer/orders", "/api/customer/profile", "/api/customer/balance",
    "/api/restaurant/", "/api/restaurant/login", "/api/restaurant/register",
    "/api/restaurant/orders", "/api/restaurant/menu", "/api/restaurant/profile",
    "/api/restaurant_details/", "/api/restaurant_details/nearby",
    "/api/orders/", "/api/orders/create", "/api/orders/update", "/api/orders/status",
    "/api/menu/", "/api/menu/items", "/api/menu/categories",
    "/api/payment/", "/api/payment/process", "/api/payment/status",
    "/api/delivery/", "/api/delivery/status", "/api/delivery/track",
    "/api/user/", "/api/user/profile", "/api/user/settings",
    "/api/search/", "/api/search/restaurants", "/api/search/menu",
    "/api/reviews/", "/api/reviews/submit", "/api/reviews/list" ]

/-- `isBusinessAPI`: does the URL contain any allow-listed endpoint. -/
def isBusinessAPI (url : String) : Bool :=
  businessEndpoints.any (fun endpoint => strIncludes url endpoint)

/-- `isSystemNoiseEnhanced`: basic rules first; then, with strict filtering on,
an `http_request` with a truthy URL that is not a business API is noise. -/
def isSystemNoiseEnhanced (strict : Bool) (event : String) (d : Details) :
    NoiseVerdict :=
  let basic := isSystemNoise event d
  if basic.isNoise then basic
  else
    match d.url with
    | some u =>
        if strict ∧ event = "http_request" ∧ u ≠ "" ∧ ¬ isBusinessAPI u then
          ⟨true, some "non_business_api"⟩
        else ⟨false, none⟩
    | none => ⟨false, none⟩

/-! ## The interaction record (interface UserInteraction, part_003 lines 312-355) -/

structure Viewport where
  width : Nat
  height : Nat
  deriving Repr, DecidableEq

structure InteractionRecord where
  id : String
  timestamp : String
  event_name : String
  attempt_id : String
  session_id : String
  browser_id : String
  route : String
  submit_trigger : String
  client_validation_passed : Bool
  username_length : Nat
  password_length : Nat
  autofill_used : Bool
  caps_lock_on : Bool
  submit_latency_ms : Nat
  event_time : String
  app_version : String
  schema_version : String
  url : String
  userAgent : String
  viewport : Viewport
  inputName : Option String
  inputType : Option String
  inputValue : Option String
  inputId : Option String
  finalValueLength : Option Nat
  system_noise : Bool
  noise_reason : Option String
  component : String
  userId : Option String
  field_presence_map : Option (List (String × Bool))
  details : Details
  deriving Repr, DecidableEq

/-- Browser-environment inputs of one `logInteraction` call: clock reading,
generated ids, window location, user agent and viewport at capture time. -/
structure Ctx where
  nowIso : String := "2024-01-01T00:00:00.000Z"
  freshId : String := "log_1_a"
  attemptId : String := "log_1_b"
  pathname : String := "/"
  href : String := "http://localhost/"
  userAgent : String := "test-agent"
  viewportW : Nat := 800
  viewportH : Nat := 600
  deriving Repr, DecidableEq

/-- Construction of the `interaction` object inside `logInteraction`
(part_003 lines 614-658), given the noise verdict already computed. -/
def mkInteraction (ctx : Ctx) (sessionId : String) (uid : Option String)
    (event : String) (d : Details) (noise : NoiseVerdict) : InteractionRecord :=
  { id := ctx.freshId
    timestamp := ctx.nowIso
    event_name := event
    attempt_id := ctx.attemptId
    session_id := sessionId
    browser_id := jsOrDefault uid "anonymous"
    route := ctx.pathname
    submit_trigger := jsOrDefault d.trigger "unknown"
    client_validation_passed := d.validation ≠ some false
    username_length := (d.username.map String.length).getD 0
    password_length := (d.password.map String.length).getD 0
    autofill_used := d.autofill.getD false
    caps_lock_on := d.capsLock.getD false
    submit_latency_ms := d.latency.getD 0
    event_time := ctx.nowIso
    app_version := "web-1.4.2"
    schema_version := jsOrDefault d.schema_version "frontend.v1"
    url := ctx.href
    userAgent := ctx.userAgent
    viewport := ⟨ctx.viewportW, ctx.viewportH⟩
    inputName := d.inputName
    inputType := d.inputType
    inputValue := d.inputValue
    inputId := d.inputId
    finalValueLength := d.finalValueLength
    system_noise := noise.isNoise
    noise_reason := noise.reason
    component := jsOrDefault d.component "unknown"
    userId := uid
    field_presence_map := d.field_presence_map
    details := d }

/-! ## Serialization of the consolidated details (JSON.stringify model) -/

def quoteJson (s : String) : String := "\"" ++ s ++ "\""

def jfStr (k : String) (v : Option String) : List String :=
  match v with
  | some s => [quoteJson k ++ ":" ++ quoteJson s]
  | none => []

def jfBool (k : String) (v : Option Bool) : List String :=
  match v with
  | some b => [quoteJson k ++ ":" ++ (if b then "true" else "false")]
  | none => []

def jfNat (k : String) (v : Option Nat) : List String :=
  match v with
  | some n => [quoteJson k ++ ":" ++ toString n]
  | none => []

def jfMap (k : String) (v : Option (List (String × Bool))) : List String :=
  match v with
  | some m =>
      [quoteJson k ++ ":\x7b" ++
        String.intercalate ","
          (m.map (fun p => quoteJson p.1 ++ ":" ++ (if p.2 then "true" else "false")))
        ++ "\x7d"]
  | none => []

/-- `JSON.stringify(details)`: present fields only, in field order. -/
def serializeDetails (d : Details) : String :=
  "\x7b" ++
    String.intercalate ","
      (jfStr "trigger" d.trigger ++ jfBool "validation" d.validation ++
       jfStr "username" d.username ++ jfStr "password" d.password ++
       jfBool "autofill" d.autofill ++ jfBool "capsLock" d.capsLock ++
       jfNat "latency" d.latency ++ jfStr "schema_version" d.schema_version ++
       jfStr "inputName" d.inputName ++ jfStr "inputType" d.inputType ++
       jfStr "inputValue" d.inputValue ++ jfStr "inputId" d.inputId ++
       jfNat "finalValueLength" d.finalValueLength ++
       jfStr "component" d.component ++ jfStr "method" d.method ++
       jfNat "statusCode" d.statusCode ++ jfStr "url" d.url ++
       jfStr "status_code" d.status_code ++ jfStr "user_id" d.user_id ++
       jfStr "ip_address" d.ip_address ++
       jfMap "field_presence_map" d.field_presence_map)
  ++ "\x7d"

/-! ## CSV Delivery Sink (class CSVLogger, part_004) -/

structure CSVLogEntry where
  timestamp : String
  event : String
  session_id : String
  route : String
  method : String
  status_code : String
  user_id : String
  ip_address : String
  component : String
  action : String
  browser_id : String
  attempt_id : String
  details : String
  deriving Repr, DecidableEq

/-- `CSVLogger.formatToCSVEntry` applied to a logger `InteractionRecord`
(the only caller passes the interaction object).  The record carries
`event_name`, so `data.event || data.action` resolves to `'unknown'` and
`data.action || data.event` to `''`.  `nowIso` models the `new Date()`
fallback taken when `data.timestamp` is falsy. -/
def formatToCSVEntry (nowIso : String) (data : InteractionRecord) : CSVLogEntry :=
  { timestamp := if data.timestamp = "" then nowIso else data.timestamp
    event := "unknown"
    session_id := if data.session_id = "" then "unknown" else data.session_id
    route :=
      if data.route = "" then (if data.url = "" then "unknown" else data.url)
      else data.route
    method := jsStrOpt (jsOrStr data.details.method none)
    status_code := jsStrOpt (jsOrStr data.details.status_code none)
    user_id :=
      jsStrOpt (jsOrStr data.details.user_id
        (jsOrStr data.userId (some data.browser_id)))
    ip_address := jsStrOpt (jsOrStr data.details.ip_address none)
    component :=
      if data.component = "" then jsStrOpt (jsOrStr data.details.component none)
      else data.component
    action := ""
    browser_id :=
      if data.browser_id = "" then jsStrOpt (jsOrStr data.userId none)
      else data.browser_id
    attempt_id := data.attempt_id
    details := serializeDetails data.details }

/-! ## Debounced Field Tracker (part_003 lines 390-466)

Timers and value map are keyed by the composite field key.  `pendingTimers`
holds the keys whose debounce timer is currently pending; a timer that was
cleared never fires, which the step relation below enforces. -/

structure Target where
  id : String
  name : String
  tagName : String
  type : String
  value : String
  deriving Repr, DecidableEq

/-- `` `${target.id || target.name || target.tagName}_${target.type}` ``. -/
def fieldKey (t : Target) : String :=
  (if t.id ≠ "" then t.id else if t.name ≠ "" then t.name else t.tagName)
    ++ "_" ++ t.type

/-- `target.name || target.id || target.tagName`. -/
def fieldNameOf (t : Target) : String :=
  if t.name ≠ "" then t.name else if t.id ≠ "" then t.id else t.tagName

structure StoredInput where
  value : String
  fieldName : String
  deriving Repr, DecidableEq

/-- Association-list lookup (Map.get). -/
def lookupA {α : Type} : List (String × α) → String → Option α
  | [], _ => none
  | (k, v) :: t, key => if k = key then some v else lookupA t key

/-- Remove every entry under a key (Map.delete). -/
def dropKey {α : Type} (l : List (String × α)) (key : String) :
    List (String × α) :=
  l.filter (fun p => p.1 ≠ key)

/-- Map.set: bind a key to a value. -/
def setEntry {α : Type} (l : List (String × α)) (key : String) (v : α) :
    List (String × α) :=
  (key, v) :: dropKey l key

/-- Remove a key from the pending-timer set (clearTimeout + Map.delete). -/
def dropTimer (l : List String) (key : String) : List String :=
  l.filter (fun k => k ≠ key)

structure TrackerState where
  pendingTimers : List String := []
  values : List (String × StoredInput) := []
  deriving Repr, DecidableEq

/-- `debouncedInputChange`: cancel any pending timer for the key, store the
latest value and field name, start a fresh settle timer. -/
def debouncedInputChange (t : Target) (st : TrackerState) : TrackerState :=
  let k := fieldKey t
  { pendingTimers := k :: dropTimer st.pendingTimers k
    values := setEntry st.values k ⟨t.value, fieldNameOf t⟩ }

/-- `logDebouncedInputChange`: on timer expiry, re-resolve the element via
`document.querySelector('[name=f],[id=f]')` (the `dom` argument), emit one
`input_change` details payload, and clean up; if the stored value or the
element is missing, return without emitting (and without cleanup). -/
def logDebouncedInputChange (dom : String → Option Target) (k : String)
    (st : TrackerState) : TrackerState × List Details :=
  match lookupA st.values k with
  | none => (st, [])
  | some data =>
    match dom data.fieldName with
    | none => (st, [])
    | some t =>
        ({ pendingTimers := st.pendingTimers, values := dropKey st.values k },
         [ { trigger := some "debounced_input"
             inputName := some data.fieldName
             inputType := some t.type
             inputValue := some (if t.type = "password" then "[HIDDEN]"
                                 else data.value.take 100)
             inputId := some t.id
             finalValueLength := some data.value.length
             schema_version := some "input_change.v1" } ])

/-- `storedData?.value || target.value` inside `logInputChangeOnBlur`. -/
def blurFinalValue (t : Target) (st : TrackerState) : String :=
  match lookupA st.values (fieldKey t) with
  | some data => if data.value ≠ "" then data.value else t.value
  | none => t.value

/-- `logInputChangeOnBlur`: cancel any pending timer for the key and emit the
`input_change` payload synchronously, then clean up the stored value. -/
def logInputChangeOnBlur (t : Target) (st : TrackerState) :
    TrackerState × List Details :=
  let k := fieldKey t
  let finalValue := blurFinalValue t st
  ({ pendingTimers := dropTimer st.pendingTimers k
    , values := dropKey st.values k },
   [ { trigger := some "blur"
       inputName := some (fieldNameOf t)
       inputType := some t.type
       inputValue := some (if t.type = "password" then "[HIDDEN]"
                           else finalValue.take 100)
       inputId := some t.id
       finalValueLength := some finalValue.length
       schema_version := some "input_change.v1" } ])

/-- Tracker-level events: a raw input event on an element, a blur on an
element, and the expiry of the pending debounce timer for a key. -/
inductive TEvent where
  | raw (t : Target)
  | blur (t : Target)
  | expire (k : String)
  deriving Repr, DecidableEq

/-- One tracker step.  A timer expiry does something only when the timer is
still pending (a cleared timer never fires); firing removes it from the
pending set before the callback runs. -/
def step (dom : String → Option Target) (st : TrackerState) :
    TEvent → TrackerState × List Details
  | .raw t => (debouncedInputChange t st, [])
  | .blur t => logInputChangeOnBlur t st
  | .expire k =>
      if k ∈ st.pendingTimers then
        logDebouncedInputChange dom k
          { pendingTimers := dropTimer st.pendingTimers k, values := st.values }
      else (st, [])

/-- Run a sequence of tracker events, collecting emitted payloads in order. -/
def run (dom : String → Option Target) :
    TrackerState → List TEvent → TrackerState × List Details
  | st, [] => (st, [])
  | st, e :: es =>
      let p := step dom st e
      let q := run dom p.1 es
      (q.1, p.2 ++ q.2)

/-- `querySelector('[name=f], [id=f]')` on a document holding the single
form field `u`. -/
def singleDom (u : Target) (f : String) : Option Target :=
  if u.name = f ∨ u.id = f then some u else none

/-- A burst of raw input events on field `t` carrying the given values. -/
def burstTrace (t : Target) (vs : List String) : List TEvent :=
  vs.map (fun v => TEvent.raw { t with value := v })

/-! ## Logger state, logInteraction and flushLogs (part_003 lines 357-952) -/

/-- `private batchSize: number = 10` (read-only). -/
def batchSize : Nat := 10

/-- `private readonly bufferSize = 10` of the CSV sink. -/
def csvBufferSize : Nat := 10

structure LoggerState where
  sessionId : String := "session_1"
  userId : Option String := none
  isEnabled : Bool := true
  logQueue : List InteractionRecord := []
  logSystemNoise : Bool := true
  filterSystemNoise : Bool := true
  strictBusinessAPIFiltering : Bool := true
  tracker : TrackerState := {}
  csvBuffer : List CSVLogEntry := []
  deriving Repr, DecidableEq

/-- Observable outcome of one `logInteraction` call: the state after the
synchronous part of the call, the snapshot handed to the JSON delivery call
when a size-triggered flush started, and whether either sink began a flush. -/
structure LogCallResult where
  state : LoggerState
  inFlightJson : List InteractionRecord
  jsonFlushStarted : Bool
  csvFlushStarted : Bool
  deriving Repr, DecidableEq

/-- `logInteraction` (part_003 lines 598-672).  Disabled logging is a no-op;
noise that is configured off is dropped; otherwise the record is pushed to
the JSON queue, mirrored to the CSV buffer, and a full queue starts a flush
whose synchronous prefix snapshots and clears the queue.  The CSV sink's
flush clears its buffer only after a successful delivery, hence not within
this call. -/
def logInteraction (ctx : Ctx) (s : LoggerState) (event : String)
    (d : Details) : LogCallResult :=
  if s.isEnabled = false then
    { state := s, inFlightJson := [], jsonFlushStarted := false
      csvFlushStarted := false }
  else
    let verdict := isSystemNoiseEnhanced s.strictBusinessAPIFiltering event d
    if verdict.isNoise = true ∧ s.logSystemNoise = false then
      { state := s, inFlightJson := [], jsonFlushStarted := false
        csvFlushStarted := false }
    else
      let r := mkInteraction ctx s.sessionId s.userId event d verdict
      let q := s.logQueue ++ [r]
      let entry := formatToCSVEntry ctx.nowIso r
      let buf := s.csvBuffer ++ [entry]
      let jsonFlush := decide (q.length ≥ batchSize)
      { state := { s with logQueue := if jsonFlush then [] else q
                          csvBuffer := buf }
        inFlightJson := if jsonFlush then q else []
        jsonFlushStarted := jsonFlush
        csvFlushStarted := decide (buf.length ≥ csvBufferSize) }

/-- `flushLogs` (part_003 lines 917-946) as a function of the delivery
outcome: an empty queue returns before attempting delivery; otherwise the
queue is snapshotted and cleared, and on a failed delivery (non-ok response
or thrown transport error, both caught) the snapshot is unshifted back in
front of whatever was appended while the request was in flight.  The
returned flag records whether a delivery was attempted; the function is
total — the catch swallows the error, so nothing propagates to the caller. -/
def flushLogs (q : List InteractionRecord) (deliverOk : Bool)
    (appendedDuring : List InteractionRecord) :
    List InteractionRecord × Bool :=
  if q = [] then (q ++ appendedDuring, false)
  else if deliverOk then (appendedDuring, true)
  else (q ++ appendedDuring, true)

/-! ## Dashboard viewer rendering (LogViewer, part_002)

A stored record as the viewer receives it from the backend: any field may be
missing.  Rendering one log card follows the JSX of part_002 lines 373-423;
a JavaScript `TypeError` is modelled as `Except.error`. -/

structure StoredRecord where
  id : Option String := none
  timestamp : Option String := none
  event_time : Option String := none
  event_name : Option String := none
  component : Option String := none
  url : Option String := none
  userId : Option String := none
  session_id : Option String := none
  details : Option (List (String × String)) := none
  viewport : Option Viewport := none
  deriving Repr, DecidableEq

/-- `formatTimestamp` (part_002 lines 206-209): a falsy argument renders the
placeholder; otherwise `new Date(ts).toLocaleString()`, modelled by the
`toLocale` argument. -/
def formatTimestamp (toLocale : String → String) (timestamp : Option String) :
    String :=
  match timestamp with
  | none => "Unknown time"
  | some s => if s = "" then "Unknown time" else toLocale s

/-- `getActionColor` (part_002 lines 216-228). -/
def getActionColor (action : String) : String :=
  match lookupA
      [ ("click", "bg-blue-100 text-blue-800"),
        ("form_submit", "bg-green-100 text-green-800"),
        ("input_change", "bg-yellow-100 text-yellow-800"),
        ("page_view", "bg-purple-100 text-purple-800"),
        ("scroll", "bg-gray-100 text-gray-800"),
        ("window_resize", "bg-indigo-100 text-indigo-800"),
        ("error", "bg-red-100 text-red-800"),
        ("navigation", "bg-pink-100 text-pink-800") ] action with
  | some c => c
  | none => "bg-gray-100 text-gray-800"

/-- `JSON.stringify(log.details, null, 2)` over the generic detail object,
simplified to key:value pairs. -/
def renderDetailsBlock (kvs : List (String × String)) : String :=
  "\x7b" ++
    String.intercalate ","
      (kvs.map (fun p => quoteJson p.1 ++ ":" ++ quoteJson p.2))
  ++ "\x7d"

structure RenderedCard where
  color : String
  eventName : String
  componentText : String
  timeText : String
  urlText : String
  userIdBlock : Option String
  sessionText : String
  detailsBlock : Option String
  viewportText : String
  isCurrentSession : Bool
  deriving Repr, DecidableEq

/-- One log card of the viewer (part_002 lines 373-423), in evaluation
order.  `Object.keys(log.details)` on a missing details object and
`log.viewport.width` on a missing viewport throw a `TypeError`;
`log.session_id?.substring(0, 20) || 'Unknown'` and the timestamp fallback
chain are total. -/
def renderLogCard (toLocale : String → String) (currentSessionId : String)
    (r : StoredRecord) : Except String RenderedCard := do
  let color := getActionColor (jsOrDefault r.event_name "")
  let timeText :=
    formatTimestamp toLocale (jsOrStr (jsOrStr r.timestamp r.event_time) (some ""))
  let sessionText :=
    match r.session_id with
    | some s => if s.take 20 = "" then "Unknown" else s.take 20
    | none => "Unknown"
  let detailsBlock ←
    match r.details with
    | none =>
        Except.error
          "TypeError: Cannot convert undefined or null to object in Object.keys(log.details)"
    | some kvs =>
        pure (if kvs.length > 0 then some (renderDetailsBlock kvs) else none)
  let vp ←
    match r.viewport with
    | none =>
        Except.error
          "TypeError: Cannot read properties of undefined in log.viewport.width"
    | some v => pure v
  pure
    { color := color
      eventName := jsStrOpt r.event_name
      componentText := jsStrOpt r.component
      timeText := timeText
      urlText := jsStrOpt r.url
      userIdBlock := jsOrStr r.userId none
      sessionText := sessionText
      detailsBlock := detailsBlock
      viewportText := toString vp.width ++ "x" ++ toString vp.height
      isCurrentSession := r.session_id = some currentSessionId }

/-! ## Concrete sample inputs -/

def ctx0 : Ctx := {}

def dClick : Details := { trigger := some "click" }

def rA : InteractionRecord :=
  mkInteraction ctx0 "s1" none "click" dClick ⟨false, none⟩

def rB : InteractionRecord :=
  mkInteraction ctx0 "s1" none "scroll" { trigger := some "scroll" } ⟨false, none⟩

def sLogger : LoggerState := { sessionId := "s1" }

def sDisabled : LoggerState := { isEnabled := false }

def s9 : LoggerState := { sessionId := "s1", logQueue := List.replicate 9 rA }

def dPassword : Details :=
  { trigger := some "submit", password := some "hunter2"
    schema_version := some "form_submit.v2" }

def rPassword : InteractionRecord :=
  mkInteraction ctx0 "s1" none "form_submit" dPassword
    (isSystemNoiseEnhanced true "form_submit" dPassword)

def dOptions : Details := { method := some "OPTIONS" }

def d301 : Details := { statusCode := some 301 }

def d302 : Details := { statusCode := some 302 }

def d308 : Details := { statusCode := some 308 }

def dLogin : Details := { url := some "/api/customer/login" }

def dUnknownApi : Details := { url := some "/api/unknown/thing" }

def recNoDetails : StoredRecord :=
  { id := some "log_1", timestamp := some "2024-01-01T00:00:00.000Z"
    event_name := some "click", session_id := some "sess"
    url := some "/", viewport := some ⟨800, 600⟩ }

def recNoTimestamp : StoredRecord :=
  { id := some "log_2", event_name := some "click", session_id := some "sess"
    url := some "/", details := some [], viewport := some ⟨800, 600⟩ }

/-! ## Claim theorems -/

/-- Claim C1 (code bug evidence): `logInteraction` consolidates the raw
`details` payload verbatim into the record (`details: details`), so a
password value supplied in the payload appears unmasked in the emitted
record's `details` field and in its serialized forms (the JSON-stringified
details and the CSV sink's details column), while `password_length` is also
derived — contradicting the claim that only length counts or the fixed mask
token `[HIDDEN]` ever appear. -/
theorem c1_password_leaks_into_details :
    rPassword.details.password = some "hunter2" ∧
    rPassword.password_length = 7 ∧
    strIncludes (serializeDetails rPassword.details) "hunter2" = true ∧
    strIncludes (formatToCSVEntry ctx0.nowIso rPassword).details "hunter2" = true ∧
    (logInteraction ctx0 sLogger "form_submit" dPassword).state.logQueue
      = [rPassword] := by
  refine ⟨rfl, rfl, by decide, by decide, ?_⟩
  decide

/-- Claim C3: when the delivery of a nonempty flushed batch fails, the whole
snapshot is put back at the front of the live queue, ahead of records
appended during the failed attempt and in original order, so no record of
the batch is lost; the model is a total function, mirroring that the catch
block swallows the error and the caller sees no exception. -/
theorem c3_failed_flush_requeues_front (q appended : List InteractionRecord)
    (hq : q ≠ []) :
    flushLogs q false appended = (q ++ appended, true) ∧
    ∀ r ∈ q, r ∈ (flushLogs q false appended).1 := by
  refine ⟨by simp [flushLogs, hq], ?_⟩
  intro r hr
  simp [flushLogs, hq]
  exact Or.inl hr

theorem c3_failed_flush_requeues_front_witness :
    flushLogs [rA] false [rB] = ([rA] ++ [rB], true) ∧
    ∀ r ∈ [rA], r ∈ (flushLogs [rA] false [rB]).1 :=
  c3_failed_flush_requeues_front [rA] [rB] (by simp)

/-- Claim C4 counterexample: an empty URL string is falsy in JavaScript, so
`isSystemNoiseEnhanced` skips the strict business filter entirely: the call
is classified as not noise although the empty URL matches no allow-listed
business endpoint and falls under no basic-noise rule — contradicting the
claimed "not noise iff the URL matches the allow-list". -/
theorem c4_empty_url_skips_business_filter :
    isSystemNoiseEnhanced true "http_request" ({ url := some "" } : Details)
      = ⟨false, none⟩ ∧
    isBusinessAPI "" = false ∧
    (isSystemNoise "http_request" ({ url := some "" } : Details)).isNoise
      = false := by
  decide

/-- Claim C4 (amended): with strict business-API filtering enabled, for an
`http_request` whose details carry a non-empty URL not matched by the basic
noise rules, the verdict is not noise iff the URL contains one of the
allow-listed business endpoints, and otherwise it is noise with reason
`non_business_api`. -/
theorem c4_strict_business_filter (d : Details) (u : String)
    (hbasic : (isSystemNoise "http_request" d).isNoise = false)
    (hurl : d.url = some u) (hne : u ≠ "") :
    isSystemNoiseEnhanced true "http_request" d =
      if isBusinessAPI u then ⟨false, none⟩
      else ⟨true, some "non_business_api"⟩ := by
  simp only [isSystemNoiseEnhanced, hbasic, hurl]
  by_cases hb : isBusinessAPI u <;> simp [hb, hne]

theorem c4_strict_business_filter_witness :
    isSystemNoiseEnhanced true "http_request" dLogin = ⟨false, none⟩ ∧
    isSystemNoiseEnhanced true "http_request" dUnknownApi
      = ⟨true, some "non_business_api"⟩ := by
  have h1 := c4_strict_business_filter dLogin "/api/customer/login"
    (by decide) rfl (by decide)
  have h2 := c4_strict_business_filter dUnknownApi "/api/unknown/thing"
    (by decide) rfl (by decide)
  exact ⟨h1.trans (by decide), h2.trans (by decide)⟩

/-- Claim C5: for every details payload, an `http_request` with method
`OPTIONS` classifies as noise `cors_preflight` (first rule, regardless of
the rest of the payload), and a `navigation` with status code 301, 302 or
308 classifies as noise with the matching reason `moved_permanently`,
`temporary_redirect` or `permanent_redirect`; this holds for the full
classifier (`isSystemNoiseEnhanced`) under either strict-filter setting. -/
theorem c5_preflight_and_redirect_noise (d : Details) (strict : Bool) :
    (d.method = some "OPTIONS" →
      isSystemNoiseEnhanced strict "http_request" d
        = ⟨true, some "cors_preflight"⟩) ∧
    (d.statusCode = some 301 →
      isSystemNoiseEnhanced strict "navigation" d
        = ⟨true, some "moved_permanently"⟩) ∧
    (d.statusCode = some 302 →
      isSystemNoiseEnhanced strict "navigation" d
        = ⟨true, some "temporary_redirect"⟩) ∧
    (d.statusCode = some 308 →
      isSystemNoiseEnhanced strict "navigation" d
        = ⟨true, some "permanent_redirect"⟩) := by
  refine ⟨fun h => ?_, fun h => ?_, fun h => ?_, fun h => ?_⟩ <;>
    simp [isSystemNoiseEnhanced, isSystemNoise, h]

theorem c5_preflight_and_redirect_noise_witness :
    isSystemNoiseEnhanced true "http_request" dOptions
      = ⟨true, some "cors_preflight"⟩ ∧
    isSystemNoiseEnhanced true "navigation" d301
      = ⟨true, some "moved_permanently"⟩ ∧
    isSystemNoiseEnhanced true "navigation" d302
      = ⟨true, some "temporary_redirect"⟩ ∧
    isSystemNoiseEnhanced true "navigation" d308
      = ⟨true, some "permanent_redirect"⟩ :=
  ⟨(c5_preflight_and_redirect_noise dOptions true).1 rfl,
   (c5_preflight_and_redirect_noise d301 true).2.1 rfl,
   (c5_preflight_and_redirect_noise d302 true).2.2.1 rfl,
   (c5_preflight_and_redirect_noise d308 true).2.2.2 rfl⟩

/-- Claim C8 (code bug evidence): rendering a stored record with no
`details` object throws (`Object.keys(log.details)` on undefined), so the
viewer is not total; the missing-timestamp case does render with the
`Unknown time` placeholder as claimed. -/
theorem c8_viewer_crashes_on_missing_details :
    renderLogCard id "cur" recNoDetails =
      Except.error
        "TypeError: Cannot convert undefined or null to object in Object.keys(log.details)" ∧
    (renderLogCard id "cur" recNoTimestamp).toOption.map RenderedCard.timeText
      = some "Unknown time" := by
  exact ⟨rfl, rfl⟩

/-- Claim C9: when logging is globally disabled, `logInteraction` is a
complete no-op: the state (JSON queue, CSV buffer, debounce timer and value
maps, all flags) is returned unchanged, nothing goes in flight and neither
sink starts a flush. -/
theorem c9_disabled_noop (ctx : Ctx) (s : LoggerState) (event : String)
    (d : Details) (h : s.isEnabled = false) :
    logInteraction ctx s event d =
      { state := s, inFlightJson := [], jsonFlushStarted := false
        csvFlushStarted := false } := by
  simp [logInteraction, h]

theorem c9_disabled_noop_witness :
    logInteraction ctx0 sDisabled "click" dClick =
      { state := sDisabled, inFlightJson := [], jsonFlushStarted := false
        csvFlushStarted := false } :=
  c9_disabled_noop ctx0 sDisabled "click" dClick rfl

/-- The record an accepted `logInteraction` call constructs and appends. -/
def acceptedRecord (ctx : Ctx) (s : LoggerState) (event : String)
    (d : Details) : InteractionRecord :=
  mkInteraction ctx s.sessionId s.userId event d
    (isSystemNoiseEnhanced s.strictBusinessAPIFiltering event d)

/-- Claim C6: an accepted `logInteraction` call starts a size-triggered
flush exactly when the push makes the queue reach the batch threshold, and
since the synchronous prefix of `flushLogs` snapshots and clears the queue,
the live queue holds strictly fewer than `batchSize` records when the call
returns. -/
theorem c6_threshold_triggers_flush (ctx : Ctx) (s : LoggerState)
    (event : String) (d : Details) (h1 : s.isEnabled = true)
    (h2 : ¬((isSystemNoiseEnhanced s.strictBusinessAPIFiltering event d).isNoise
            = true ∧ s.logSystemNoise = false)) :
    (logInteraction ctx s event d).jsonFlushStarted
        = decide (s.logQueue.length + 1 ≥ batchSize) ∧
    (logInteraction ctx s event d).state.logQueue.length < batchSize := by
  have hen : ¬(s.isEnabled = false) := by simp [h1]
  unfold logInteraction
  rw [if_neg hen, if_neg h2]
  refine ⟨by simp, ?_⟩
  by_cases hq9 : 9 ≤ s.logQueue.length
  · simp [hq9, batchSize]
  · simp [hq9, batchSize]
    omega

theorem c6_threshold_triggers_flush_witness :
    (logInteraction ctx0 s9 "click" dClick).jsonFlushStarted = true ∧
    (logInteraction ctx0 s9 "click" dClick).state.logQueue.length < batchSize :=
  ⟨((c6_threshold_triggers_flush ctx0 s9 "click" dClick rfl (by decide)).1).trans
      (by decide),
   (c6_threshold_triggers_flush ctx0 s9 "click" dClick rfl (by decide)).2⟩

/-- Claim C7: an accepted `logInteraction` call appends the constructed
record exactly once to the JSON batching queue (it is either still in the
live queue or, when the push filled the batch, in the in-flight snapshot —
their concatenation is the old queue plus exactly one copy) and exactly
once to the CSV sink's buffer, as the corresponding CSV entry. -/
theorem c7_dual_sink_exactly_once (ctx : Ctx) (s : LoggerState)
    (event : String) (d : Details) (h1 : s.isEnabled = true)
    (h2 : ¬((isSystemNoiseEnhanced s.strictBusinessAPIFiltering event d).isNoise
            = true ∧ s.logSystemNoise = false)) :
    (logInteraction ctx s event d).state.logQueue
        ++ (logInteraction ctx s event d).inFlightJson
      = s.logQueue ++ [acceptedRecord ctx s event d] ∧
    (logInteraction ctx s event d).state.csvBuffer
      = s.csvBuffer
          ++ [formatToCSVEntry ctx.nowIso (acceptedRecord ctx s event d)] := by
  have hen : ¬(s.isEnabled = false) := by simp [h1]
  unfold logInteraction acceptedRecord
  rw [if_neg hen, if_neg h2]
  refine ⟨?_, by simp⟩
  by_cases hq : batchSize ≤ s.logQueue.length + 1
  · simp [List.length_append, hq]
  · simp [List.length_append, hq]

theorem c7_dual_sink_exactly_once_witness :
    (logInteraction ctx0 sLogger "click" dClick).state.logQueue
        ++ (logInteraction ctx0 sLogger "click" dClick).inFlightJson
      = sLogger.logQueue ++ [acceptedRecord ctx0 sLogger "click" dClick] ∧
    (logInteraction ctx0 sLogger "click" dClick).state.csvBuffer
      = sLogger.csvBuffer
          ++ [formatToCSVEntry ctx0.nowIso
                (acceptedRecord ctx0 sLogger "click" dClick)] :=
  c7_dual_sink_exactly_once ctx0 sLogger "click" dClick rfl (by decide)

/-! ## Tracker lemmas -/

lemma dropTimer_cons_self (l : List String) (k : String) :
    dropTimer (k :: l) k = dropTimer l k := by
  simp [dropTimer]

lemma dropTimer_idem (l : List String) (k : String) :
    dropTimer (dropTimer l k) k = dropTimer l k := by
  simp [dropTimer, List.filter_filter]

lemma not_mem_dropTimer (l : List String) (k : String) :
    k ∉ dropTimer l k := by
  simp [dropTimer]

lemma dropKey_cons_self {α : Type} (l : List (String × α)) (k : String)
    (v : α) : dropKey ((k, v) :: l) k = dropKey l k := by
  simp [dropKey]

lemma dropKey_idem {α : Type} (l : List (String × α)) (k : String) :
    dropKey (dropKey l k) k = dropKey l k := by
  simp [dropKey, List.filter_filter]

lemma run_append (dom : String → Option Target) (xs ys : List TEvent) :
    ∀ st : TrackerState,
      run dom st (xs ++ ys) =
        ((run dom (run dom st xs).1 ys).1,
         (run dom st xs).2 ++ (run dom (run dom st xs).1 ys).2) := by
  induction xs with
  | nil => intro st; simp [run]
  | cons e es ih =>
      intro st
      have h1 : run dom st ((e :: es) ++ ys) =
          ((run dom (step dom st e).1 (es ++ ys)).1,
           (step dom st e).2 ++ (run dom (step dom st e).1 (es ++ ys)).2) := rfl
      have h2 : run dom st (e :: es) =
          ((run dom (step dom st e).1 es).1,
           (step dom st e).2 ++ (run dom (step dom st e).1 es).2) := rfl
      rw [h1, ih, h2]
      simp [List.append_assoc]

lemma run_burst (dom : String → Option Target) (t : Target) :
    ∀ (vs : List String) (v : String) (st : TrackerState),
      run dom st (burstTrace t (vs ++ [v])) =
        ({ pendingTimers := fieldKey t :: dropTimer st.pendingTimers (fieldKey t)
           values := (fieldKey t, ⟨v, fieldNameOf t⟩)
                       :: dropKey st.values (fieldKey t) }, []) := by
  intro vs
  induction vs with
  | nil => intro v st; rfl
  | cons v0 rest ih =>
      intro v st
      have h1 : run dom st (burstTrace t ((v0 :: rest) ++ [v]))
          = run dom (debouncedInputChange { t with value := v0 } st)
              (burstTrace t (rest ++ [v])) := rfl
      have hk : fieldKey { t with value := v0 } = fieldKey t := rfl
      have hf : fieldNameOf { t with value := v0 } = fieldNameOf t := rfl
      rw [h1, ih]
      simp [debouncedInputChange, setEntry, hk, hf, dropTimer_cons_self,
        dropTimer_idem, dropKey_cons_self, dropKey_idem]

/-- Claim C2 counterexample: for a form field with neither `name` nor `id`
attribute, the debounce-expiry path re-resolves the element with
`querySelector('[name="INPUT"], [id="INPUT"]')`, finds nothing, and returns
without emitting — a burst of one raw input event followed by a settle gap
emits zero `input_change` payloads, not exactly one. -/
theorem c2_settle_gap_zero_emissions_for_anonymous_field :
    (run
        (singleDom
          { id := "", name := "", tagName := "INPUT", type := "text", value := "a" })
        {}
        (burstTrace
            { id := "", name := "", tagName := "INPUT", type := "text", value := "" }
            ["a"]
          ++ [TEvent.expire "INPUT_text"])).2 = [] ∧
    fieldKey { id := "", name := "", tagName := "INPUT", type := "text", value := "" }
      = "INPUT_text" := by
  exact ⟨rfl, rfl⟩

/-- Claim C2 (amended): for a burst of N ≥ 1 raw input events on one field
that carries a non-empty `name` or `id` attribute (so the element can be
re-resolved at timer expiry), followed by either a settle gap (the pending
timer fires) or a blur on that field, exactly one `input_change` payload is
emitted — never two, never zero — reflecting the last value observed before
emission (masked if the field is a password type), and afterwards no
debounce timer for that field key is pending, so no duplicate emission can
follow. -/
theorem c2_debounce_exactly_once (t : Target) (vs : List String) (v : String)
    (st0 : TrackerState) (hid : t.name ≠ "" ∨ t.id ≠ "") :
    ((run (singleDom { t with value := v }) st0
        (burstTrace t (vs ++ [v]) ++ [TEvent.expire (fieldKey t)])).2
      = [ { trigger := some "debounced_input"
            inputName := some (fieldNameOf t)
            inputType := some t.type
            inputValue := some (if t.type = "password" then "[HIDDEN]"
                                else v.take 100)
            inputId := some t.id
            finalValueLength := some v.length
            schema_version := some "input_change.v1" } ]) ∧
    fieldKey t ∉ (run (singleDom { t with value := v }) st0
        (burstTrace t (vs ++ [v]) ++ [TEvent.expire (fieldKey t)])).1.pendingTimers ∧
    ((run (singleDom { t with value := v }) st0
        (burstTrace t (vs ++ [v]) ++ [TEvent.blur { t with value := v }])).2
      = [ { trigger := some "blur"
            inputName := some (fieldNameOf t)
            inputType := some t.type
            inputValue := some (if t.type = "password" then "[HIDDEN]"
                                else v.take 100)
            inputId := some t.id
            finalValueLength := some v.length
            schema_version := some "input_change.v1" } ]) ∧
    fieldKey t ∉ (run (singleDom { t with value := v }) st0
        (burstTrace t (vs ++ [v]) ++ [TEvent.blur { t with value := v }])).1.pendingTimers := by
  have hdom :
      singleDom { t with value := v } (fieldNameOf t)
        = some { t with value := v } := by
    rcases hid with hn | hi
    · simp [singleDom, fieldNameOf, hn]
    · by_cases hn : t.name = ""
      · simp [singleDom, fieldNameOf, hn, hi]
      · simp [singleDom, fieldNameOf, hn]
  have hk : fieldKey { t with value := v } = fieldKey t := rfl
  have hf : fieldNameOf { t with value := v } = fieldNameOf t := rfl
  simp only [run_append, run_burst]
  refine ⟨?_, ?_, ?_, ?_⟩
  · simp [run, step, logDebouncedInputChange, dropTimer_cons_self,
      dropTimer_idem, lookupA, hdom, hk, hf]
  · simp [run, step, logDebouncedInputChange, dropTimer_cons_self,
      dropTimer_idem, lookupA, hdom, hk, hf, not_mem_dropTimer]
  · simp [run, step, logInputChangeOnBlur, blurFinalValue, lookupA,
      dropTimer_cons_self, dropTimer_idem, hk, hf]
  · simp [run, step, logInputChangeOnBlur, dropTimer_cons_self,
      dropTimer_idem, not_mem_dropTimer, hk, hf]

def tNamed : Target :=
  { id := "", name := "user", tagName := "INPUT", type := "text", value := "" }

set_option maxRecDepth 8000 in
theorem c2_debounce_exactly_once_witness :
    ((run (singleDom { tNamed with value := "abc" }) {}
        (burstTrace tNamed (["a", "ab"] ++ ["abc"])
          ++ [TEvent.expire (fieldKey tNamed)])).2
      = [ { trigger := some "debounced_input", inputName := some "user"
            inputType := some "text", inputValue := some "abc"
            inputId := some "", finalValueLength := some 3
            schema_version := some "input_change.v1" } ]) ∧
    fieldKey tNamed ∉ (run (singleDom { tNamed with value := "abc" }) {}
        (burstTrace tNamed (["a", "ab"] ++ ["abc"])
          ++ [TEvent.expire (fieldKey tNamed)])).1.pendingTimers ∧
    ((run (singleDom { tNamed with value := "abc" }) {}
        (burstTrace tNamed (["a", "ab"] ++ ["abc"])
          ++ [TEvent.blur { tNamed with value := "abc" }])).2
      = [ { trigger := some "blur", inputName := some "user"
            inputType := some "text", inputValue := some "abc"
            inputId := some "", finalValueLength := some 3
            schema_version := some "input_change.v1" } ]) ∧
    fieldKey tNamed ∉ (run (singleDom { tNamed with value := "abc" }) {}
        (burstTrace tNamed (["a", "ab"] ++ ["abc"])
          ++ [TEvent.blur { tNamed with value := "abc" }])).1.pendingTimers := by
  have h := c2_debounce_exactly_once tNamed ["a", "ab"] "abc" {}
    (Or.inl (by decide))
  exact ⟨h.1.trans (by decide), h.2.1, h.2.2.1.trans (by decide), h.2.2.2⟩

/-- Claim C10: in every `input_change` payload the tracker emits (debounce
expiry or blur) for a non-password field, `inputValue` is the first 100
characters of the observed value (the stored burst value on expiry, the
stored-or-live value on blur) while `finalValueLength` is that value's full
untruncated length. -/
theorem c10_truncated_value_full_length (dom : String → Option Target)
    (k : String) (st st2 : TrackerState) (data : StoredInput) (t t2 : Target)
    (hlook : lookupA st.values k = some data)
    (hdom : dom data.fieldName = some t)
    (hp : t.type ≠ "password") (hp2 : t2.type ≠ "password") :
    ((logDebouncedInputChange dom k st).2.map Details.inputValue
        = [some (data.value.take 100)] ∧
     (logDebouncedInputChange dom k st).2.map Details.finalValueLength
        = [some data.value.length]) ∧
    ((logInputChangeOnBlur t2 st2).2.map Details.inputValue
        = [some ((blurFinalValue t2 st2).take 100)] ∧
     (logInputChangeOnBlur t2 st2).2.map Details.finalValueLength
        = [some (blurFinalValue t2 st2).length]) := by
  refine ⟨⟨?_, ?_⟩, ?_, ?_⟩ <;>
    simp [logDebouncedInputChange, logInputChangeOnBlur, hlook, hdom, hp, hp2]

def longVal : String := String.mk (List.replicate 150 'a')

def tLong : Target :=
  { id := "f1", name := "notes", tagName := "TEXTAREA", type := "textarea"
    value := longVal }

def stLong : TrackerState :=
  { pendingTimers := [fieldKey tLong]
    values := [(fieldKey tLong, ⟨longVal, "notes"⟩)] }

def domLong : String → Option Target :=
  fun f => if f = "notes" then some tLong else none

theorem c10_truncated_value_full_length_witness :
    ((logDebouncedInputChange domLong (fieldKey tLong) stLong).2.map
          Details.inputValue
        = [some (longVal.take 100)] ∧
     (logDebouncedInputChange domLong (fieldKey tLong) stLong).2.map
          Details.finalValueLength
        = [some longVal.length]) ∧
    ((logInputChangeOnBlur tLong stLong).2.map Details.inputValue
        = [some ((blurFinalValue tLong stLong).take 100)] ∧
     (logInputChangeOnBlur tLong stLong).2.map Details.finalValueLength
        = [some (blurFinalValue tLong stLong).length]) :=
  c10_truncated_value_full_length domLong (fieldKey tLong) stLong stLong
    ⟨longVal, "notes"⟩ tLong tLong rfl rfl (by decide) (by decide)

end Lieferspatz
